import Mathlib

/-!
Verification of the sentiment-analysis dashboard (`app.py`).

The program loads a CSV of customer reviews into session state, classifies
each review summary with the VADER compound polarity score, filters by
product, and aggregates sentiment counts in a fixed canonical order.

The embedding below models:
- `get_sentiment` — the classifier, with the VADER analyzer abstracted as a
  scoring oracle `String → Except String ℚ` (the compound score is a real
  number in [-1, 1]; we embed it as a rational, which represents every float
  exactly);
- the "Load Dataset" and "Analyze Sentiment" button handlers as transitions
  on a session state, with the file read abstracted as an
  `Except LoadErr (List Row)` outcome;
- the product filter `filtered_df` and the aggregation pipeline
  `sentiment_counts` (pandas `value_counts` followed by the categorical
  reorder on `sentiment_order`).
UI side effects (`st.success`, `st.error`, `st.warning`) are modelled as
returned messages.
-/

/-- The three sentiment labels the classifier can return
(the strings "Positive", "Negative", "Neutral" in the source). -/
inductive Sentiment where
  | Positive
  | Negative
  | Neutral
deriving DecidableEq, Repr

/-- A cell of the SUMMARY column as produced by `pandas.read_csv`:
a Python string, `None`, or the float NaN used for missing values. -/
inductive TextVal where
  | nullV
  | nanV
  | strV (s : String)
deriving DecidableEq, Repr

/-- Python truthiness test `not text`: `None` and the empty string are falsy;
NaN (a nonzero float) and nonempty strings are truthy. -/
def pyNot : TextVal → Bool
  | .nullV => true
  | .nanV => false
  | .strV s => s.isEmpty

/-- `pd.isna(text)`: true exactly on `None` and NaN. -/
def pd_isna : TextVal → Bool
  | .nullV => true
  | .nanV => true
  | .strV _ => false

/-- The string handed to `analyzer.polarity_scores` when the cell is a string. -/
def textStr : TextVal → String
  | .strV s => s
  | _ => ""

/-- `get_sentiment(text)` from `app.py`. The VADER analyzer is the `scorer`
oracle: `Except.ok c` means `polarity_scores(text)["compound"] = c`, and
`Except.error e` means the scoring raised an exception with message `e`.
The result pairs the returned label with the list of `st.error` messages
emitted (empty when no warning was displayed). -/
def get_sentiment (scorer : String → Except String ℚ) (text : TextVal) :
    Sentiment × List String :=
  if pyNot text || pd_isna text then
    (.Neutral, [])
  else
    match scorer (textStr text) with
    | .ok compound =>
        if (0.05 : ℚ) ≤ compound then (.Positive, [])
        else if compound ≤ -(0.05 : ℚ) then (.Negative, [])
        else (.Neutral, [])
    | .error e => (.Neutral, ["VADER model error: " ++ e])

/-- C1: for every scored text (a nonempty string on which the analyzer
succeeds with compound score `c`), `get_sentiment` returns Positive when
`c ≥ 0.05`, Negative when `c ≤ -0.05`, and Neutral when `-0.05 < c < 0.05`. -/
theorem get_sentiment_threshold_policy (scorer : String → Except String ℚ)
    (s : String) (c : ℚ) (hne : s.isEmpty = false)
    (hsc : scorer s = Except.ok c) :
    ((0.05 : ℚ) ≤ c → (get_sentiment scorer (.strV s)).1 = .Positive) ∧
    (c ≤ -(0.05 : ℚ) → (get_sentiment scorer (.strV s)).1 = .Negative) ∧
    (-(0.05 : ℚ) < c → c < (0.05 : ℚ) →
      (get_sentiment scorer (.strV s)).1 = .Neutral) := by
  refine ⟨fun h => ?_, fun h => ?_, fun h1 h2 => ?_⟩
  · simp [get_sentiment, pyNot, pd_isna, textStr, hne, hsc, h]
  · have hnp : ¬ (0.05 : ℚ) ≤ c := not_le.mpr (lt_of_le_of_lt h (by norm_num))
    simp [get_sentiment, pyNot, pd_isna, textStr, hne, hsc, hnp, h]
  · have hnp : ¬ (0.05 : ℚ) ≤ c := not_le.mpr h2
    have hnn : ¬ c ≤ -(0.05 : ℚ) := not_le.mpr h1
    simp [get_sentiment, pyNot, pd_isna, textStr, hne, hsc, hnp, hnn]

/-- Witness for C1 at the boundary scores: compound exactly 0.05 gives
Positive, exactly -0.05 gives Negative, and exactly 0 gives Neutral. -/
theorem get_sentiment_threshold_policy_witness :
    (get_sentiment (fun _ => Except.ok (0.05 : ℚ)) (.strV "great")).1 = .Positive ∧
    (get_sentiment (fun _ => Except.ok (-(0.05 : ℚ))) (.strV "awful")).1 = .Negative ∧
    (get_sentiment (fun _ => Except.ok (0 : ℚ)) (.strV "meh")).1 = .Neutral :=
  ⟨(get_sentiment_threshold_policy _ "great" (0.05 : ℚ) rfl rfl).1 le_rfl,
   (get_sentiment_threshold_policy _ "awful" (-(0.05 : ℚ)) rfl rfl).2.1 le_rfl,
   (get_sentiment_threshold_policy _ "meh" (0 : ℚ) rfl rfl).2.2
     (by norm_num) (by norm_num)⟩

/-- C3: on a `None` or NaN cell, `get_sentiment` returns Neutral with no
warning, and the result does not depend on the scorer — the guard
`not text or pd.isna(text)` short-circuits before any scoring. -/
theorem get_sentiment_null_neutral (scorer : String → Except String ℚ) :
    get_sentiment scorer .nullV = (.Neutral, []) ∧
    get_sentiment scorer .nanV = (.Neutral, []) := by
  constructor <;> rfl

/-- C7: when the analyzer raises on a scored text, `get_sentiment` catches
the exception, emits the `st.error` warning, and returns Neutral; being a
total function, it never propagates the failure. -/
theorem get_sentiment_scorer_error_neutral (scorer : String → Except String ℚ)
    (s : String) (e : String) (hne : s.isEmpty = false)
    (hsc : scorer s = Except.error e) :
    get_sentiment scorer (.strV s) = (.Neutral, ["VADER model error: " ++ e]) := by
  simp [get_sentiment, pyNot, pd_isna, textStr, hne, hsc]

/-- Witness for C7: a scorer that always fails yields Neutral plus the
warning message. -/
theorem get_sentiment_scorer_error_neutral_witness :
    get_sentiment (fun _ => Except.error "boom") (.strV "text") =
      (.Neutral, ["VADER model error: boom"]) :=
  get_sentiment_scorer_error_neutral _ "text" "boom" rfl rfl

/-- C10: `get_sentiment` is total over every modelled input cell and always
returns one of the three labels; the empty string, though not null, takes
the same guard branch as absent input and yields Neutral with no scoring
(the result is scorer-independent and emits no warning). -/
theorem get_sentiment_total_three_labels (scorer : String → Except String ℚ)
    (text : TextVal) :
    ((get_sentiment scorer text).1 = .Positive ∨
     (get_sentiment scorer text).1 = .Negative ∨
     (get_sentiment scorer text).1 = .Neutral) ∧
    get_sentiment scorer (.strV "") = (.Neutral, []) := by
  constructor
  · rcases text with _ | _ | s
    · exact Or.inr (Or.inr rfl)
    · exact Or.inr (Or.inr rfl)
    · by_cases hs : s.isEmpty
      · simp [get_sentiment, pyNot, pd_isna, hs]
      · rcases hsc : scorer s with e | c
        · simp [get_sentiment, pyNot, pd_isna, textStr, hs, hsc]
        · rcases le_or_lt (0.05 : ℚ) c with h1 | h1
          · exact Or.inl (by simp [get_sentiment, pyNot, pd_isna, textStr, hs, hsc, h1])
          · rcases le_or_lt c (-(0.05 : ℚ)) with h2 | h2
            · refine Or.inr (Or.inl ?_)
              simp [get_sentiment, pyNot, pd_isna, textStr, hs, hsc, h2, not_le.mpr h1]
            · refine Or.inr (Or.inr ?_)
              simp [get_sentiment, pyNot, pd_isna, textStr, hs, hsc,
                not_le.mpr h1, not_le.mpr h2]
  · rfl

/-- A row of the loaded dataset: the PRODUCT column, the SUMMARY column,
and the Sentiment column (absent before "Analyze Sentiment" has run). -/
structure Row where
  PRODUCT : String
  SUMMARY : TextVal
  Sentiment : Option Sentiment
deriving DecidableEq, Repr

/-- The Streamlit session state: `st.session_state["df"]`, absent until the
first successful load. -/
structure SessionState where
  df : Option (List Row)
deriving DecidableEq, Repr

/-- Outcome of `pd.read_csv` on the fixed dataset path: `fileNotFound`
models `FileNotFoundError`, `other` models any other read/parse exception. -/
inductive LoadErr where
  | fileNotFound
  | other (msg : String)
deriving DecidableEq, Repr

/-- A message displayed by the handler (`st.success` / `st.error` /
`st.warning`). -/
inductive UIMsg where
  | successMsg (m : String)
  | errorMsg (m : String)
  | warningMsg (m : String)
deriving DecidableEq, Repr

/-- The "Load Dataset" button handler: on a successful read it stores the
first 10 rows (`df.head(10)`) as the current dataset; `FileNotFoundError`
and any other exception are caught and reported, leaving the state as it
was. The file read is abstracted as its outcome `readResult`. -/
def loadDatasetHandler (readResult : Except LoadErr (List Row))
    (st : SessionState) : SessionState × UIMsg :=
  match readResult with
  | .ok table =>
      ({ df := some (table.take 10) }, .successMsg "Dataset loaded successfully!")
  | .error .fileNotFound =>
      (st, .errorMsg "Dataset not found. Please check the file path.")
  | .error (.other e) =>
      (st, .errorMsg ("Unexpected error loading dataset: " ++ e))

/-- The "Analyze Sentiment" button handler: when a dataset is present it
overwrites the Sentiment column with `get_sentiment` applied to each SUMMARY
cell; otherwise it warns and changes nothing. (The handler's `except` arm is
unreachable: `get_sentiment` catches its own failures.) -/
def analyzeSentimentHandler (scorer : String → Except String ℚ)
    (st : SessionState) : SessionState × UIMsg :=
  match st.df with
  | some rows =>
      ({ df := some (rows.map (fun r =>
          { r with Sentiment := some (get_sentiment scorer r.SUMMARY).1 })) },
       .successMsg "Sentiment analysis completed!")
  | none => (st, .warningMsg "Please load the dataset first.")

/-- C4: loading when the file is missing reports the not-found error and
leaves the session state — in particular a previously loaded dataset —
exactly as it was. -/
theorem load_missing_preserves_dataset (st : SessionState) (d : List Row)
    (h : st.df = some d) :
    loadDatasetHandler (.error .fileNotFound) st =
      (st, .errorMsg "Dataset not found. Please check the file path.") ∧
    (loadDatasetHandler (.error .fileNotFound) st).1.df = some d := by
  exact ⟨rfl, h⟩

/-- Witness for C4 on a concrete one-row prior dataset. -/
theorem load_missing_preserves_dataset_witness :
    loadDatasetHandler (.error .fileNotFound)
        { df := some [{ PRODUCT := "Widget", SUMMARY := .strV "ok", Sentiment := none }] } =
      ({ df := some [{ PRODUCT := "Widget", SUMMARY := .strV "ok", Sentiment := none }] },
       .errorMsg "Dataset not found. Please check the file path.") ∧
    (loadDatasetHandler (.error .fileNotFound)
        { df := some [{ PRODUCT := "Widget", SUMMARY := .strV "ok", Sentiment := none }] }).1.df =
      some [{ PRODUCT := "Widget", SUMMARY := .strV "ok", Sentiment := none }] :=
  load_missing_preserves_dataset _ _ rfl

/-- C6: a successful load stores exactly the first 10 rows of the read
table as the (whole) new dataset, regardless of the prior state; the stored
prefix has at most 10 rows and agrees with the table position by position. -/
theorem load_success_truncates_head10 (table : List Row) (st : SessionState)
    (i : Nat) (hi : i < 10) :
    (loadDatasetHandler (.ok table) st).1.df = some (table.take 10) ∧
    (table.take 10).length ≤ 10 ∧
    (table.take 10)[i]? = table[i]? := by
  refine ⟨rfl, ?_, ?_⟩
  · exact List.length_take_le 10 table
  · simp [List.getElem?_take, hi]

/-- Witness for C6: an 11-row table is cut to its first 10 rows, replacing a
previously loaded dataset. -/
theorem load_success_truncates_head10_witness :
    (loadDatasetHandler
        (.ok (List.replicate 11 { PRODUCT := "P", SUMMARY := .nullV, Sentiment := none }))
        { df := some [] }).1.df =
      some ((List.replicate 11
        ({ PRODUCT := "P", SUMMARY := .nullV, Sentiment := none } : Row)).take 10) ∧
    ((List.replicate 11
        ({ PRODUCT := "P", SUMMARY := .nullV, Sentiment := none } : Row)).take 10).length ≤ 10 ∧
    ((List.replicate 11
        ({ PRODUCT := "P", SUMMARY := .nullV, Sentiment := none } : Row)).take 10)[0]? =
      (List.replicate 11
        ({ PRODUCT := "P", SUMMARY := .nullV, Sentiment := none } : Row))[0]? :=
  load_success_truncates_head10 _ _ 0 (by decide)

/-- C9: triggering "Analyze Sentiment" with no dataset loaded emits the
warning and is a no-op on the session state. -/
theorem analyze_without_dataset_noop (scorer : String → Except String ℚ)
    (st : SessionState) (h : st.df = none) :
    analyzeSentimentHandler scorer st =
      (st, .warningMsg "Please load the dataset first.") := by
  simp [analyzeSentimentHandler, h]

/-- Witness for C9 on the empty initial state. -/
theorem analyze_without_dataset_noop_witness :
    analyzeSentimentHandler (fun _ => Except.ok 0) { df := none } =
      ({ df := none }, .warningMsg "Please load the dataset first.") :=
  analyze_without_dataset_noop _ _ rfl

/-- C8: the classifier is deterministic — the label is a function of the
text cell alone (two rows with equal SUMMARY get equal labels) — and
analysis is idempotent: re-running "Analyze Sentiment" on an
already-labelled dataset recomputes the identical dataset. -/
theorem classify_deterministic_idempotent (scorer : String → Except String ℚ)
    (r r' : Row) (st : SessionState) (h : r.SUMMARY = r'.SUMMARY) :
    get_sentiment scorer r.SUMMARY = get_sentiment scorer r'.SUMMARY ∧
    (analyzeSentimentHandler scorer (analyzeSentimentHandler scorer st).1).1 =
      (analyzeSentimentHandler scorer st).1 := by
  refine ⟨by rw [h], ?_⟩
  rcases st with ⟨_ | rows⟩
  · rfl
  · simp [analyzeSentimentHandler]

/-- Witness for C8: concrete rows sharing a SUMMARY and a concrete one-row
state. -/
theorem classify_deterministic_idempotent_witness :
    get_sentiment (fun _ => Except.ok 0)
        ({ PRODUCT := "A", SUMMARY := .strV "fine", Sentiment := none } : Row).SUMMARY =
      get_sentiment (fun _ => Except.ok 0)
        ({ PRODUCT := "B", SUMMARY := .strV "fine", Sentiment := some .Positive } : Row).SUMMARY ∧
    (analyzeSentimentHandler (fun _ => Except.ok 0)
        (analyzeSentimentHandler (fun _ => Except.ok 0)
          { df := some [{ PRODUCT := "A", SUMMARY := .strV "fine", Sentiment := none }] }).1).1 =
      (analyzeSentimentHandler (fun _ => Except.ok 0)
        { df := some [{ PRODUCT := "A", SUMMARY := .strV "fine", Sentiment := none }] }).1 :=
  classify_deterministic_idempotent _ _ _ _ rfl

/-- The fixed canonical category order `sentiment_order` from the source. -/
def sentiment_order : List Sentiment := [.Negative, .Neutral, .Positive]

/-- pandas `value_counts` on the Sentiment column: one pair per distinct
label, with that label's occurrence count. pandas presents the pairs sorted
by descending count; that presentation order is immaterial to
`sentiment_counts`, which immediately re-sorts by the categorical key and
looks each pair up by its (distinct) label, so we list pairs in first
occurrence order of `dedup`. -/
def value_counts (labels : List Sentiment) : List (Sentiment × Nat) :=
  labels.dedup.map (fun s => (s, labels.count s))

/-- `sort_values` on a `pd.Categorical` column whose categories are `order`:
the rows are rearranged into category order. The keys here are distinct, so
the row of each category is its unique pair found by key. -/
def sort_by_categorical (order : List Sentiment)
    (pairs : List (Sentiment × Nat)) : List (Sentiment × Nat) :=
  order.filterMap (fun s => pairs.find? (fun p => p.1 == s))

/-- The aggregation pipeline of `app.py` lines 84-99: `value_counts`, then
`existing_sentiments` (= the keys of the counts), then `filtered_order`
(= `sentiment_order` restricted to present labels), then the categorical
sort by `filtered_order`. -/
def sentiment_counts (labels : List Sentiment) : List (Sentiment × Nat) :=
  sort_by_categorical
    (sentiment_order.filter
      (fun s => ((value_counts labels).map Prod.fst).contains s))
    (value_counts labels)

/-- The product filter of `app.py` lines 74-77. -/
def filtered_df (product : String) (rows : List Row) : List Row :=
  if product ≠ "All Products" then
    rows.filter (fun r => r.PRODUCT == product)
  else rows

lemma find?_map_count (labels M : List Sentiment) (s : Sentiment) (h : s ∈ M) :
    (M.map (fun t => (t, labels.count t))).find? (fun p => p.1 == s) =
      some (s, labels.count s) := by
  induction M with
  | nil => cases h
  | cons x xs ih =>
    by_cases hx : x = s
    · subst hx
      rw [List.map_cons]
      exact List.find?_cons_of_pos _ (by simp)
    · have hs : s ∈ xs := by
        rcases List.mem_cons.mp h with h1 | h1
        · exact absurd h1.symm hx
        · exact h1
      rw [List.map_cons, List.find?_cons_of_neg _ (by simp [hx])]
      exact ih hs

lemma find?_value_counts (labels : List Sentiment) (s : Sentiment)
    (h : s ∈ labels) :
    (value_counts labels).find? (fun p => p.1 == s) =
      some (s, labels.count s) :=
  find?_map_count labels labels.dedup s (List.mem_dedup.mpr h)

lemma vc_keys (labels : List Sentiment) :
    (value_counts labels).map Prod.fst = labels.dedup := by
  simp [value_counts, List.map_map, Function.comp_def]

lemma sort_by_categorical_eq (labels : List Sentiment) (ord : List Sentiment)
    (h : ∀ s ∈ ord, s ∈ labels) :
    sort_by_categorical ord (value_counts labels) =
      ord.map (fun s => (s, labels.count s)) := by
  induction ord with
  | nil => rfl
  | cons x xs ih =>
    have hx : x ∈ labels := h x (List.mem_cons_self x xs)
    have hxs : ∀ s ∈ xs, s ∈ labels := fun s hs => h s (List.mem_cons_of_mem x hs)
    unfold sort_by_categorical at ih ⊢
    rw [List.filterMap_cons, find?_value_counts labels x hx, List.map_cons]
    exact congrArg _ (ih hxs)

/-- `sentiment_counts` in closed form: the canonical order restricted to
present labels, each paired with its count. -/
lemma sentiment_counts_eq (labels : List Sentiment) :
    sentiment_counts labels =
      (sentiment_order.filter (fun s => labels.contains s)).map
        (fun s => (s, labels.count s)) := by
  unfold sentiment_counts
  rw [vc_keys]
  have h2 : sentiment_order.filter (fun s => labels.dedup.contains s) =
      sentiment_order.filter (fun s => labels.contains s) :=
    List.filter_congr (fun s _ => by simp [List.mem_dedup])
  rw [h2]
  exact sort_by_categorical_eq labels _ (fun s hs => by
    have := (List.mem_filter.mp hs).2
    simpa using this)

lemma sentiment_count_partition (labels : List Sentiment) :
    labels.count .Negative + labels.count .Neutral + labels.count .Positive =
      labels.length := by
  induction labels with
  | nil => rfl
  | cons x xs ih =>
    cases x <;> simp [List.count_cons] <;> omega

/-- C2: `sentiment_counts` equals the canonical sequence Negative, Neutral,
Positive restricted to the labels that occur (zero-count labels omitted),
each paired with its occurrence count — so the output order is fixed
regardless of count magnitude or insertion order — and the counts sum to
the number of input rows. -/
theorem sentiment_counts_canonical_order_sum (labels : List Sentiment) :
    sentiment_counts labels =
      (sentiment_order.filter (fun s => labels.contains s)).map
        (fun s => (s, labels.count s)) ∧
    ((sentiment_counts labels).map Prod.snd).sum = labels.length := by
  refine ⟨sentiment_counts_eq labels, ?_⟩
  rw [sentiment_counts_eq labels, List.map_map]
  have hpart := sentiment_count_partition labels
  cases hn : labels.contains Sentiment.Negative <;>
    cases hu : labels.contains Sentiment.Neutral <;>
      cases hp : labels.contains Sentiment.Positive <;>
        simp at hn hu hp <;>
          simp [sentiment_order, hn, hu, hp, Function.comp_def] <;>
            (try have a1 := List.count_eq_zero.mpr hn) <;>
              (try have a2 := List.count_eq_zero.mpr hu) <;>
                (try have a3 := List.count_eq_zero.mpr hp) <;> omega

/-- C5: filtering by a product identifier that is not "All Products" and
does not occur in the PRODUCT column yields the empty filtered set (no
error), and aggregating its (empty) Sentiment column yields the empty
aggregate. -/
theorem filtered_df_absent_product_empty (product : String) (rows : List Row)
    (h1 : product ≠ "All Products")
    (h2 : (rows.map Row.PRODUCT).contains product = false) :
    filtered_df product rows = [] ∧
    sentiment_counts ((filtered_df product rows).filterMap Row.Sentiment) = [] := by
  have hempty : filtered_df product rows = [] := by
    unfold filtered_df
    rw [if_pos h1, List.filter_eq_nil_iff]
    intro r hr
    simp only [beq_iff_eq]
    intro heq
    simp at h2
    exact h2 r hr heq
  refine ⟨hempty, ?_⟩
  rw [hempty]
  rfl

/-- Witness for C5: the product "Gadget" is absent from a one-row dataset. -/
theorem filtered_df_absent_product_empty_witness :
    filtered_df "Gadget"
        [{ PRODUCT := "Widget", SUMMARY := .strV "ok", Sentiment := some .Neutral }] = [] ∧
    sentiment_counts ((filtered_df "Gadget"
        [{ PRODUCT := "Widget", SUMMARY := .strV "ok",
           Sentiment := some .Neutral }]).filterMap Row.Sentiment) = [] :=
  filtered_df_absent_product_empty "Gadget" _ (by decide) (by decide)
